import Mathlib

/-!
Verification of the scrape orchestration and partial-failure-isolation engine of
`solana-exporter` (`cmd/solana_exporter/exporter.go`).

The shallow embedding below translates the collector code.  Each sub-collection's
upstream query is represented by its result (`Except` of an error string, or the
structured health error), since the RPC transport is an external collaborator.
A Prometheus channel send `ch <- m` becomes appending `m` to the emitted list.
`logger.Fatalf` terminates the process, so in the embedding a fatal stops the
scrape: metrics already sent to the channel stand, and the sub-collections that
would run afterwards never execute.
-/

namespace SolanaExporter

/-- Label-value constants from the source (`StateCurrent`, `StateDelinquent`). -/
def StateCurrent : String := "current"

def StateDelinquent : String := "delinquent"

/-- The eleven metric descriptors held by `SolanaCollector` (its `GaugeDesc` fields). -/
inductive Desc where
  | validatorActive
  | validatorActiveStake
  | validatorLastVote
  | validatorRootSlot
  | validatorDelinquent
  | accountBalances
  | nodeVersion
  | nodeIsHealthy
  | nodeNumSlotsBehind
  | nodeMinimumLedgerSlot
  | nodeFirstAvailableBlock
deriving DecidableEq, Repr

/-- One metric sent on the collection channel: either a normal observation
(`MustNewConstMetric`: value plus label values) or a failure sentinel
(`NewInvalidMetric`: carrying the originating error's text). -/
inductive Metric where
  | const (desc : Desc) (value : Int) (labels : List String)
  | invalid (desc : Desc) (err : String)
deriving DecidableEq, Repr

def Metric.desc : Metric → Desc
  | .const d _ _ => d
  | .invalid d _ => d

def Metric.isConst : Metric → Bool
  | .const _ _ _ => true
  | .invalid _ _ => false

def Metric.isInvalid : Metric → Bool
  | .const _ _ _ => false
  | .invalid _ _ => true

def Metric.value : Metric → Int
  | .const _ v _ => v
  | .invalid _ _ => 0

/-- The metrics of a list that belong to one descriptor (one metric family). -/
def filterDesc (d : Desc) (ms : List Metric) : List Metric :=
  ms.filter (fun m => decide (m.desc = d))

/-- One record of the `getVoteAccounts` response (`rpc.VoteAccount`). -/
structure VoteAccount where
  votePubkey : String
  nodePubkey : String
  activatedStake : Int
  lastVote : Int
  rootSlot : Int
deriving DecidableEq, Repr

/-- The `getVoteAccounts` response: the `current` and `delinquent` partitions. -/
structure VoteAccounts where
  current : List VoteAccount
  delinquent : List VoteAccount
deriving DecidableEq, Repr

/-- `rpc.NodeUnhealthyErrorData`; its Go zero value has `NumSlotsBehind = 0`. -/
structure NodeUnhealthyErrorData where
  numSlotsBehind : Int := 0
deriving DecidableEq, Repr

/-- The opaque secondary payload of a structured RPC error: either the
well-formed shape `\x7bnumSlotsBehind: n\x7d` or bytes that do not decode to it. -/
inductive RpcErrData where
  | slotsBehind (n : Int)
  | malformed (raw : String)
deriving DecidableEq, Repr

/-- `rpc.RPCError`: a structured RPC-protocol error with an optional payload. -/
structure RPCError where
  method : String
  message : String
  data : Option RpcErrData
deriving DecidableEq, Repr

/-- A failed health query's error: either a structured `rpc.RPCError`
(matched by `errors.As`) or some other, transport-level error. -/
inductive HealthErr where
  | rpcError (e : RPCError)
  | other (msg : String)
deriving DecidableEq, Repr

/-- The error's rendered text, as carried into log lines and sentinels. -/
def HealthErr.text : HealthErr → String
  | .rpcError e => e.message
  | .other msg => msg

/-- Modelled from the spec: `rpc.UnpackRpcErrorData` is not under src/.  Per §4.2
step 4 it attempts to decode the structured error's secondary payload into
`\x7bnumSlotsBehind: integer\x7d`, failing exactly when the payload does not have that
shape.  The decoded value would be delivered through the second argument; the
call site in `collectHealth` (exporter.go:242) passes its `errorData` struct by
value, so the caller can only observe the returned error, never the decoded
fields. -/
def UnpackRpcErrorData (rpcError : RPCError) (_formattedData : NodeUnhealthyErrorData) :
    Except String Unit :=
  match rpcError.data with
  | none => .error "no rpc error data"
  | some (.slotsBehind _) => .ok ()
  | some (.malformed _) => .error "invalid rpc error data format"

/-- `SolanaCollector.collectVoteAccounts` (exporter.go:147-175), as a function of
the `GetVoteAccounts` result.  On failure it sends one invalid metric per owned
descriptor; on success it sends the two `ValidatorActive` counts (delinquent
first, as in the source), then per account of `current ++ delinquent` the
stake/last-vote/root-slot triple, then the delinquency indicators. -/
def collectVoteAccounts (res : Except String VoteAccounts) : List Metric :=
  match res with
  | .error e =>
      [.invalid .validatorActive e,
       .invalid .validatorActiveStake e,
       .invalid .validatorLastVote e,
       .invalid .validatorRootSlot e,
       .invalid .validatorDelinquent e]
  | .ok voteAccounts =>
      [.const .validatorActive voteAccounts.delinquent.length [StateDelinquent],
       .const .validatorActive voteAccounts.current.length [StateCurrent]]
      ++ (voteAccounts.current ++ voteAccounts.delinquent).flatMap (fun account =>
           [.const .validatorActiveStake account.activatedStake
              [account.votePubkey, account.nodePubkey],
            .const .validatorLastVote account.lastVote
              [account.votePubkey, account.nodePubkey],
            .const .validatorRootSlot account.rootSlot
              [account.votePubkey, account.nodePubkey]])
      ++ voteAccounts.current.map (fun account =>
           .const .validatorDelinquent 0 [account.votePubkey, account.nodePubkey])
      ++ voteAccounts.delinquent.map (fun account =>
           .const .validatorDelinquent 1 [account.votePubkey, account.nodePubkey])

/-- `SolanaCollector.collectVersion` (exporter.go:177-187). -/
def collectVersion (res : Except String String) : List Metric :=
  match res with
  | .error e => [.invalid .nodeVersion e]
  | .ok version => [.const .nodeVersion 1 [version]]

/-- `SolanaCollector.collectBalances` (exporter.go:211-222), as a function of the
`FetchBalances` result (an address-to-balance map, given as an association
list since Go map iteration order is unspecified). -/
def collectBalances (res : Except String (List (String × Int))) : List Metric :=
  match res with
  | .error e => [.invalid .accountBalances e]
  | .ok balances => balances.map (fun p => .const .accountBalances p.2 [p.1])

/-- `SolanaCollector.collectMinimumLedgerSlot` (exporter.go:188-198). -/
def collectMinimumLedgerSlot (identity : String) (res : Except String Int) : List Metric :=
  match res with
  | .error e => [.invalid .nodeMinimumLedgerSlot e]
  | .ok slot => [.const .nodeMinimumLedgerSlot slot [identity]]

/-- `SolanaCollector.collectFirstAvailableBlock` (exporter.go:199-209). -/
def collectFirstAvailableBlock (identity : String) (res : Except String Int) : List Metric :=
  match res with
  | .error e => [.invalid .nodeFirstAvailableBlock e]
  | .ok block => [.const .nodeFirstAvailableBlock block [identity]]

/-- `SolanaCollector.collectHealth` (exporter.go:224-261), parameterised by the
unpack function (whose definition is outside src/).  `.error` is the
`logger.Fatalf` at exporter.go:244: the process terminates and nothing is sent.
The source declares `var errorData rpc.NodeUnhealthyErrorData` and passes it to
the unpack function **by value** (exporter.go:242), so after the call the
local `errorData` still holds its zero value; `numSlotsBehind` at
exporter.go:247 therefore reads 0 regardless of the payload's contents. -/
def collectHealth (unpack : RPCError → NodeUnhealthyErrorData → Except String Unit)
    (identity : String) (health : Except HealthErr Unit) : Except String (List Metric) :=
  let isHealthy : Int := 1
  let numSlotsBehind : Int := 0
  match health with
  | .ok _ =>
      .ok [.const .nodeIsHealthy isHealthy [identity],
           .const .nodeNumSlotsBehind numSlotsBehind [identity]]
  | .error err =>
      match err with
      | .rpcError rpcError =>
          let errorData : NodeUnhealthyErrorData := {}
          match rpcError.data with
          | none =>
              .ok [.invalid .nodeIsHealthy err.text,
                   .invalid .nodeNumSlotsBehind err.text]
          | some _ =>
              match unpack rpcError errorData with
              | .error e =>
                  .error ("failed to unpack " ++ rpcError.method ++ " rpc error: " ++ e)
              | .ok _ =>
                  let isHealthy : Int := 0
                  let numSlotsBehind : Int := errorData.numSlotsBehind
                  .ok [.const .nodeIsHealthy isHealthy [identity],
                       .const .nodeNumSlotsBehind numSlotsBehind [identity]]
      | .other _ =>
          .ok [.invalid .nodeIsHealthy err.text,
               .invalid .nodeNumSlotsBehind err.text]

instance exceptDecEq {ε α : Type} [DecidableEq ε] [DecidableEq α] :
    DecidableEq (Except ε α) := fun a b =>
  match a, b with
  | .error e₁, .error e₂ =>
      if h : e₁ = e₂ then isTrue (by rw [h]) else isFalse (by intro hc; cases hc; exact h rfl)
  | .error _, .ok _ => isFalse (by intro hc; cases hc)
  | .ok _, .error _ => isFalse (by intro hc; cases hc)
  | .ok a₁, .ok a₂ =>
      if h : a₁ = a₂ then isTrue (by rw [h]) else isFalse (by intro hc; cases hc; exact h rfl)

/-- The six upstream query results one scrape consumes. -/
structure ScrapeInputs where
  voteAccounts : Except String VoteAccounts
  version : Except String String
  balances : Except String (List (String × Int))
  health : Except HealthErr Unit
  minimumLedgerSlot : Except String Int
  firstAvailableBlock : Except String Int
deriving DecidableEq, Repr

/-- What one scrape produces: the metrics sent on the channel, and the fatal
error when `collectHealth` hit `logger.Fatalf` (terminating the process). -/
structure CollectOutcome where
  emitted : List Metric
  fatal : Option String
deriving DecidableEq, Repr

/-- `SolanaCollector.Collect` (exporter.go:263-273): the six sub-collections in
source order.  The first three always run; if `collectHealth` is fatal the
process dies with their metrics already sent, and the minimum-ledger-slot and
first-available-block sub-collections never run. -/
def Collect (identity : String) (inputs : ScrapeInputs) : CollectOutcome :=
  let pre := collectVoteAccounts inputs.voteAccounts
      ++ collectVersion inputs.version
      ++ collectBalances inputs.balances
  match collectHealth UnpackRpcErrorData identity inputs.health with
  | .error e => { emitted := pre, fatal := some e }
  | .ok healthMetrics =>
      { emitted := pre ++ healthMetrics
          ++ collectMinimumLedgerSlot identity inputs.minimumLedgerSlot
          ++ collectFirstAvailableBlock identity inputs.firstAvailableBlock,
        fatal := none }

/-- Modelled from the spec: `CombineUnique` (called at `NewSolanaCollector`,
exporter.go:63) is not under src/.  §4.3 specifies it as a pure set-union
builder: `build(...lists of string) -> set of string`, order-independent,
with duplicates across and within lists collapsing to one membership. -/
def CombineUnique (lists : List (List String)) : Finset String :=
  lists.flatten.toFinset

/-- The five descriptors owned by the vote-accounts sub-collection. -/
def voteAccountDescs : List Desc :=
  [.validatorActive, .validatorActiveStake, .validatorLastVote,
   .validatorRootSlot, .validatorDelinquent]

/-- Does the health result carry a structured RPC error whose secondary payload
is present but undecodable (the one fatal scrape condition)? -/
def undecodableHealthPayload : Except HealthErr Unit → Bool
  | .error (.rpcError r) =>
      match r.data with
      | some (.malformed _) => true
      | _ => false
  | _ => false

/-- A health error that the classifier cannot classify: either not a structured
RPC error at all, or a structured RPC error with no secondary payload. -/
def unclassifiedHealthError : HealthErr → Prop
  | .rpcError r => r.data = none
  | .other _ => True

/-- The metrics the health sub-collection actually sends on the channel:
none when it hits the fatal `logger.Fatalf`. -/
def healthEmitted (identity : String) (health : Except HealthErr Unit) : List Metric :=
  match collectHealth UnpackRpcErrorData identity health with
  | .error _ => []
  | .ok hm => hm

/-- The output of the sub-collection that owns a given descriptor (each metric
family is written by exactly one sub-collection). -/
def ownerSegment (identity : String) (inputs : ScrapeInputs) : Desc → List Metric
  | .validatorActive => collectVoteAccounts inputs.voteAccounts
  | .validatorActiveStake => collectVoteAccounts inputs.voteAccounts
  | .validatorLastVote => collectVoteAccounts inputs.voteAccounts
  | .validatorRootSlot => collectVoteAccounts inputs.voteAccounts
  | .validatorDelinquent => collectVoteAccounts inputs.voteAccounts
  | .accountBalances => collectBalances inputs.balances
  | .nodeVersion => collectVersion inputs.version
  | .nodeIsHealthy => healthEmitted identity inputs.health
  | .nodeNumSlotsBehind => healthEmitted identity inputs.health
  | .nodeMinimumLedgerSlot => collectMinimumLedgerSlot identity inputs.minimumLedgerSlot
  | .nodeFirstAvailableBlock => collectFirstAvailableBlock identity inputs.firstAvailableBlock

/-! ### Helper lemmas shared across the claim theorems -/

lemma filterDesc_append (d : Desc) (l₁ l₂ : List Metric) :
    filterDesc d (l₁ ++ l₂) = filterDesc d l₁ ++ filterDesc d l₂ :=
  List.filter_append ..

lemma filterDesc_eq_nil (d : Desc) (l : List Metric) (h : ∀ m ∈ l, m.desc ≠ d) :
    filterDesc d l = [] := by
  apply List.filter_eq_nil_iff.mpr
  intro m hm
  simp [h m hm]

lemma desc_of_mem_collectVersion {m : Metric} {res : Except String String}
    (h : m ∈ collectVersion res) : m.desc = .nodeVersion := by
  cases res <;> simp [collectVersion] at h <;> simp [h, Metric.desc]

lemma desc_of_mem_collectBalances {m : Metric} {res : Except String (List (String × Int))}
    (h : m ∈ collectBalances res) : m.desc = .accountBalances := by
  cases res with
  | error e => simp [collectBalances] at h; simp [h, Metric.desc]
  | ok balances =>
      simp only [collectBalances, List.mem_map] at h
      obtain ⟨p, _, hp⟩ := h
      rw [← hp]; rfl

lemma desc_of_mem_collectMinimumLedgerSlot {m : Metric} {identity : String}
    {res : Except String Int} (h : m ∈ collectMinimumLedgerSlot identity res) :
    m.desc = .nodeMinimumLedgerSlot := by
  cases res <;> simp [collectMinimumLedgerSlot] at h <;> simp [h, Metric.desc]

lemma desc_of_mem_collectFirstAvailableBlock {m : Metric} {identity : String}
    {res : Except String Int} (h : m ∈ collectFirstAvailableBlock identity res) :
    m.desc = .nodeFirstAvailableBlock := by
  cases res <;> simp [collectFirstAvailableBlock] at h <;> simp [h, Metric.desc]

lemma desc_of_mem_collectVoteAccounts {m : Metric} {res : Except String VoteAccounts}
    (h : m ∈ collectVoteAccounts res) : m.desc ∈ voteAccountDescs := by
  cases res with
  | error e =>
      simp only [collectVoteAccounts, List.mem_cons, List.not_mem_nil, or_false] at h
      rcases h with rfl | rfl | rfl | rfl | rfl <;> simp [Metric.desc, voteAccountDescs]
  | ok va =>
      rcases List.mem_append.mp h with hm | hm
      · rcases List.mem_append.mp hm with hm | hm
        · rcases List.mem_append.mp hm with hm | hm
          · simp only [List.mem_cons, List.not_mem_nil, or_false] at hm
            rcases hm with rfl | rfl <;> simp [Metric.desc, voteAccountDescs]
          · rcases List.mem_flatMap.mp hm with ⟨a, _, ha⟩
            simp only [List.mem_cons, List.not_mem_nil, or_false] at ha
            rcases ha with rfl | rfl | rfl <;> simp [Metric.desc, voteAccountDescs]
        · rcases List.mem_map.mp hm with ⟨a, _, rfl⟩
          simp [Metric.desc, voteAccountDescs]
      · rcases List.mem_map.mp hm with ⟨a, _, rfl⟩
        simp [Metric.desc, voteAccountDescs]

lemma desc_of_mem_collectHealth {unpack : RPCError → NodeUnhealthyErrorData → Except String Unit}
    {identity : String} {health : Except HealthErr Unit} {hm : List Metric} {m : Metric}
    (hok : collectHealth unpack identity health = .ok hm) (h : m ∈ hm) :
    m.desc = .nodeIsHealthy ∨ m.desc = .nodeNumSlotsBehind := by
  cases health with
  | ok u =>
      simp [collectHealth] at hok
      subst hok
      simp only [List.mem_cons, List.not_mem_nil, or_false] at h
      rcases h with rfl | rfl <;> simp [Metric.desc]
  | error err =>
      cases err with
      | rpcError rpcError =>
          cases hdata : rpcError.data with
          | none =>
              simp [collectHealth, hdata] at hok
              subst hok
              simp only [List.mem_cons, List.not_mem_nil, or_false] at h
              rcases h with rfl | rfl <;> simp [Metric.desc]
          | some d =>
              cases hu : unpack rpcError {} with
              | error e => simp [collectHealth, hdata, hu] at hok
              | ok u =>
                  simp [collectHealth, hdata, hu] at hok
                  subst hok
                  simp only [List.mem_cons, List.not_mem_nil, or_false] at h
                  rcases h with rfl | rfl <;> simp [Metric.desc]
      | other msg =>
          simp [collectHealth] at hok
          subst hok
          simp only [List.mem_cons, List.not_mem_nil, or_false] at h
          rcases h with rfl | rfl <;> simp [Metric.desc]

lemma desc_of_mem_constMap {β : Type} {m : Metric} {l : List β} {d : Desc}
    {f : β → Int} {g : β → List String}
    (h : m ∈ l.map fun a => Metric.const d (f a) (g a)) : m.desc = d := by
  rcases List.mem_map.mp h with ⟨a, _, rfl⟩; rfl

lemma desc_of_mem_tripleFlatMap {m : Metric} {l : List VoteAccount}
    (h : m ∈ l.flatMap fun a =>
      [Metric.const .validatorActiveStake a.activatedStake [a.votePubkey, a.nodePubkey],
       Metric.const .validatorLastVote a.lastVote [a.votePubkey, a.nodePubkey],
       Metric.const .validatorRootSlot a.rootSlot [a.votePubkey, a.nodePubkey]]) :
    m.desc = .validatorActiveStake ∨ m.desc = .validatorLastVote ∨
      m.desc = .validatorRootSlot := by
  rcases List.mem_flatMap.mp h with ⟨a, _, ha⟩
  simp only [List.mem_cons, List.not_mem_nil, or_false] at ha
  rcases ha with rfl | rfl | rfl <;> simp [Metric.desc]

lemma filterDesc_constMap_eq_nil {β : Type} {d d' : Desc} (l : List β)
    (f : β → Int) (g : β → List String) (h : d' ≠ d) :
    filterDesc d (l.map fun a => Metric.const d' (f a) (g a)) = [] :=
  filterDesc_eq_nil _ _ fun _ hm => by rw [desc_of_mem_constMap hm]; exact h

lemma filterDesc_constMap_eq {β : Type} {d : Desc} (l : List β)
    (f : β → Int) (g : β → List String) :
    filterDesc d (l.map fun a => Metric.const d (f a) (g a)) =
      l.map fun a => Metric.const d (f a) (g a) := by
  induction l with
  | nil => rfl
  | cons a l ih =>
      unfold filterDesc at ih ⊢
      rw [List.map_cons, List.filter_cons_of_pos, ih]
      simp [Metric.desc]

lemma filterDesc_triple_eq_nil {d : Desc} (l : List VoteAccount)
    (h₁ : d ≠ .validatorActiveStake) (h₂ : d ≠ .validatorLastVote)
    (h₃ : d ≠ .validatorRootSlot) :
    filterDesc d (l.flatMap fun a =>
      [Metric.const .validatorActiveStake a.activatedStake [a.votePubkey, a.nodePubkey],
       Metric.const .validatorLastVote a.lastVote [a.votePubkey, a.nodePubkey],
       Metric.const .validatorRootSlot a.rootSlot [a.votePubkey, a.nodePubkey]]) = [] :=
  filterDesc_eq_nil _ _ fun _ hm => by
    rcases desc_of_mem_tripleFlatMap hm with h | h | h
    · rw [h]; exact Ne.symm h₁
    · rw [h]; exact Ne.symm h₂
    · rw [h]; exact Ne.symm h₃

lemma filterDesc_triple_stake (l : List VoteAccount) :
    filterDesc .validatorActiveStake (l.flatMap fun a =>
      [Metric.const .validatorActiveStake a.activatedStake [a.votePubkey, a.nodePubkey],
       Metric.const .validatorLastVote a.lastVote [a.votePubkey, a.nodePubkey],
       Metric.const .validatorRootSlot a.rootSlot [a.votePubkey, a.nodePubkey]]) =
      l.map fun a =>
        Metric.const .validatorActiveStake a.activatedStake [a.votePubkey, a.nodePubkey] := by
  induction l with
  | nil => rfl
  | cons a l ih => rw [List.flatMap_cons, filterDesc_append, ih]; rfl

lemma filterDesc_triple_lastVote (l : List VoteAccount) :
    filterDesc .validatorLastVote (l.flatMap fun a =>
      [Metric.const .validatorActiveStake a.activatedStake [a.votePubkey, a.nodePubkey],
       Metric.const .validatorLastVote a.lastVote [a.votePubkey, a.nodePubkey],
       Metric.const .validatorRootSlot a.rootSlot [a.votePubkey, a.nodePubkey]]) =
      l.map fun a =>
        Metric.const .validatorLastVote a.lastVote [a.votePubkey, a.nodePubkey] := by
  induction l with
  | nil => rfl
  | cons a l ih => rw [List.flatMap_cons, filterDesc_append, ih]; rfl

lemma filterDesc_triple_rootSlot (l : List VoteAccount) :
    filterDesc .validatorRootSlot (l.flatMap fun a =>
      [Metric.const .validatorActiveStake a.activatedStake [a.votePubkey, a.nodePubkey],
       Metric.const .validatorLastVote a.lastVote [a.votePubkey, a.nodePubkey],
       Metric.const .validatorRootSlot a.rootSlot [a.votePubkey, a.nodePubkey]]) =
      l.map fun a =>
        Metric.const .validatorRootSlot a.rootSlot [a.votePubkey, a.nodePubkey] := by
  induction l with
  | nil => rfl
  | cons a l ih => rw [List.flatMap_cons, filterDesc_append, ih]; rfl

lemma filterDesc_va_ok_active (va : VoteAccounts) :
    filterDesc .validatorActive (collectVoteAccounts (.ok va)) =
      [.const .validatorActive (va.delinquent.length : Int) [StateDelinquent],
       .const .validatorActive (va.current.length : Int) [StateCurrent]] := by
  simp only [collectVoteAccounts]
  rw [filterDesc_append, filterDesc_append, filterDesc_append,
    filterDesc_triple_eq_nil _ (by simp) (by simp) (by simp),
    filterDesc_constMap_eq_nil _ _ _ (by simp),
    filterDesc_constMap_eq_nil _ _ _ (by simp)]
  rfl

lemma filterDesc_va_ok_stake (va : VoteAccounts) :
    filterDesc .validatorActiveStake (collectVoteAccounts (.ok va)) =
      (va.current ++ va.delinquent).map fun a =>
        Metric.const .validatorActiveStake a.activatedStake [a.votePubkey, a.nodePubkey] := by
  simp only [collectVoteAccounts]
  rw [filterDesc_append, filterDesc_append, filterDesc_append,
    filterDesc_triple_stake,
    filterDesc_constMap_eq_nil _ _ _ (by simp),
    filterDesc_constMap_eq_nil _ _ _ (by simp)]
  simp [filterDesc, Metric.desc]

lemma filterDesc_va_ok_lastVote (va : VoteAccounts) :
    filterDesc .validatorLastVote (collectVoteAccounts (.ok va)) =
      (va.current ++ va.delinquent).map fun a =>
        Metric.const .validatorLastVote a.lastVote [a.votePubkey, a.nodePubkey] := by
  simp only [collectVoteAccounts]
  rw [filterDesc_append, filterDesc_append, filterDesc_append,
    filterDesc_triple_lastVote,
    filterDesc_constMap_eq_nil _ _ _ (by simp),
    filterDesc_constMap_eq_nil _ _ _ (by simp)]
  simp [filterDesc, Metric.desc]

lemma filterDesc_va_ok_rootSlot (va : VoteAccounts) :
    filterDesc .validatorRootSlot (collectVoteAccounts (.ok va)) =
      (va.current ++ va.delinquent).map fun a =>
        Metric.const .validatorRootSlot a.rootSlot [a.votePubkey, a.nodePubkey] := by
  simp only [collectVoteAccounts]
  rw [filterDesc_append, filterDesc_append, filterDesc_append,
    filterDesc_triple_rootSlot,
    filterDesc_constMap_eq_nil _ _ _ (by simp),
    filterDesc_constMap_eq_nil _ _ _ (by simp)]
  simp [filterDesc, Metric.desc]

lemma filterDesc_va_ok_delinquent (va : VoteAccounts) :
    filterDesc .validatorDelinquent (collectVoteAccounts (.ok va)) =
      (va.current.map fun a =>
        Metric.const .validatorDelinquent 0 [a.votePubkey, a.nodePubkey])
      ++ va.delinquent.map fun a =>
        Metric.const .validatorDelinquent 1 [a.votePubkey, a.nodePubkey] := by
  simp only [collectVoteAccounts]
  rw [filterDesc_append, filterDesc_append, filterDesc_append,
    filterDesc_triple_eq_nil _ (by simp) (by simp) (by simp),
    filterDesc_constMap_eq, filterDesc_constMap_eq]
  simp [filterDesc, Metric.desc]

lemma filterDesc_va_error (d : Desc) (e : String) (hd : d ∈ voteAccountDescs) :
    filterDesc d (collectVoteAccounts (.error e)) = [.invalid d e] := by
  simp only [voteAccountDescs, List.mem_cons, List.not_mem_nil, or_false] at hd
  rcases hd with rfl | rfl | rfl | rfl | rfl <;> rfl

lemma filterDesc_va_eq_nil {d : Desc} (res : Except String VoteAccounts)
    (hd : d ∉ voteAccountDescs) : filterDesc d (collectVoteAccounts res) = [] :=
  filterDesc_eq_nil _ _ fun _ hm => by
    intro hc
    exact hd (hc ▸ desc_of_mem_collectVoteAccounts hm)

lemma filterDesc_version_eq_nil {d : Desc} (res : Except String String)
    (hd : d ≠ .nodeVersion) : filterDesc d (collectVersion res) = [] :=
  filterDesc_eq_nil _ _ fun _ hm => by rw [desc_of_mem_collectVersion hm]; exact Ne.symm hd

lemma filterDesc_balances_eq_nil {d : Desc} (res : Except String (List (String × Int)))
    (hd : d ≠ .accountBalances) : filterDesc d (collectBalances res) = [] :=
  filterDesc_eq_nil _ _ fun _ hm => by rw [desc_of_mem_collectBalances hm]; exact Ne.symm hd

lemma filterDesc_mls_eq_nil {d : Desc} (identity : String) (res : Except String Int)
    (hd : d ≠ .nodeMinimumLedgerSlot) :
    filterDesc d (collectMinimumLedgerSlot identity res) = [] :=
  filterDesc_eq_nil _ _ fun _ hm => by
    rw [desc_of_mem_collectMinimumLedgerSlot hm]; exact Ne.symm hd

lemma filterDesc_fab_eq_nil {d : Desc} (identity : String) (res : Except String Int)
    (hd : d ≠ .nodeFirstAvailableBlock) :
    filterDesc d (collectFirstAvailableBlock identity res) = [] :=
  filterDesc_eq_nil _ _ fun _ hm => by
    rw [desc_of_mem_collectFirstAvailableBlock hm]; exact Ne.symm hd

lemma desc_of_mem_healthEmitted {identity : String} {health : Except HealthErr Unit}
    {m : Metric} (h : m ∈ healthEmitted identity health) :
    m.desc = .nodeIsHealthy ∨ m.desc = .nodeNumSlotsBehind := by
  unfold healthEmitted at h
  cases hh : collectHealth UnpackRpcErrorData identity health with
  | error e => rw [hh] at h; simp at h
  | ok hm => rw [hh] at h; exact desc_of_mem_collectHealth hh h

lemma filterDesc_healthEmitted_eq_nil {d : Desc} (identity : String)
    (health : Except HealthErr Unit) (h₁ : d ≠ .nodeIsHealthy)
    (h₂ : d ≠ .nodeNumSlotsBehind) : filterDesc d (healthEmitted identity health) = [] :=
  filterDesc_eq_nil _ _ fun _ hm => by
    rcases desc_of_mem_healthEmitted hm with h | h
    · rw [h]; exact Ne.symm h₁
    · rw [h]; exact Ne.symm h₂

lemma Collect_eq_fatal {identity : String} {inputs : ScrapeInputs} {e : String}
    (h : collectHealth UnpackRpcErrorData identity inputs.health = .error e) :
    Collect identity inputs =
      { emitted := collectVoteAccounts inputs.voteAccounts
          ++ collectVersion inputs.version ++ collectBalances inputs.balances,
        fatal := some e } := by
  simp [Collect, h]

lemma Collect_eq_ok {identity : String} {inputs : ScrapeInputs} {hm : List Metric}
    (h : collectHealth UnpackRpcErrorData identity inputs.health = .ok hm) :
    Collect identity inputs =
      { emitted := collectVoteAccounts inputs.voteAccounts
          ++ collectVersion inputs.version ++ collectBalances inputs.balances
          ++ hm
          ++ collectMinimumLedgerSlot identity inputs.minimumLedgerSlot
          ++ collectFirstAvailableBlock identity inputs.firstAvailableBlock,
        fatal := none } := by
  simp [Collect, h]

lemma va_homog (res : Except String VoteAccounts) :
    (∀ m ∈ collectVoteAccounts res, m.isConst = true) ∨
    (∀ m ∈ collectVoteAccounts res, m.isInvalid = true) := by
  cases res with
  | error e =>
      right; intro m hm
      simp only [collectVoteAccounts, List.mem_cons, List.not_mem_nil, or_false] at hm
      rcases hm with rfl | rfl | rfl | rfl | rfl <;> rfl
  | ok va =>
      left; intro m hm
      rcases List.mem_append.mp hm with hm | hm
      · rcases List.mem_append.mp hm with hm | hm
        · rcases List.mem_append.mp hm with hm | hm
          · simp only [List.mem_cons, List.not_mem_nil, or_false] at hm
            rcases hm with rfl | rfl <;> rfl
          · rcases List.mem_flatMap.mp hm with ⟨a, _, ha⟩
            simp only [List.mem_cons, List.not_mem_nil, or_false] at ha
            rcases ha with rfl | rfl | rfl <;> rfl
        · rcases List.mem_map.mp hm with ⟨a, _, rfl⟩; rfl
      · rcases List.mem_map.mp hm with ⟨a, _, rfl⟩; rfl

lemma version_homog (res : Except String String) :
    (∀ m ∈ collectVersion res, m.isConst = true) ∨
    (∀ m ∈ collectVersion res, m.isInvalid = true) := by
  cases res with
  | error e => right; intro m hm; simp [collectVersion] at hm; simp [hm, Metric.isInvalid]
  | ok v => left; intro m hm; simp [collectVersion] at hm; simp [hm, Metric.isConst]

lemma balances_homog (res : Except String (List (String × Int))) :
    (∀ m ∈ collectBalances res, m.isConst = true) ∨
    (∀ m ∈ collectBalances res, m.isInvalid = true) := by
  cases res with
  | error e => right; intro m hm; simp [collectBalances] at hm; simp [hm, Metric.isInvalid]
  | ok bs =>
      left; intro m hm
      simp only [collectBalances, List.mem_map] at hm
      rcases hm with ⟨p, _, rfl⟩; rfl

lemma mls_homog (identity : String) (res : Except String Int) :
    (∀ m ∈ collectMinimumLedgerSlot identity res, m.isConst = true) ∨
    (∀ m ∈ collectMinimumLedgerSlot identity res, m.isInvalid = true) := by
  cases res with
  | error e =>
      right; intro m hm
      simp [collectMinimumLedgerSlot] at hm; simp [hm, Metric.isInvalid]
  | ok slot =>
      left; intro m hm
      simp [collectMinimumLedgerSlot] at hm; simp [hm, Metric.isConst]

lemma fab_homog (identity : String) (res : Except String Int) :
    (∀ m ∈ collectFirstAvailableBlock identity res, m.isConst = true) ∨
    (∀ m ∈ collectFirstAvailableBlock identity res, m.isInvalid = true) := by
  cases res with
  | error e =>
      right; intro m hm
      simp [collectFirstAvailableBlock] at hm; simp [hm, Metric.isInvalid]
  | ok block =>
      left; intro m hm
      simp [collectFirstAvailableBlock] at hm; simp [hm, Metric.isConst]

lemma healthEmitted_homog (identity : String) (health : Except HealthErr Unit) :
    (∀ m ∈ healthEmitted identity health, m.isConst = true) ∨
    (∀ m ∈ healthEmitted identity health, m.isInvalid = true) := by
  cases health with
  | ok u =>
      left; intro m hm
      simp [healthEmitted, collectHealth] at hm
      rcases hm with rfl | rfl <;> rfl
  | error err =>
      cases err with
      | rpcError r =>
          obtain ⟨method, message, data⟩ := r
          cases data with
          | none =>
              right; intro m hm
              simp [healthEmitted, collectHealth] at hm
              rcases hm with rfl | rfl <;> rfl
          | some d =>
              cases d with
              | slotsBehind n =>
                  left; intro m hm
                  simp [healthEmitted, collectHealth, UnpackRpcErrorData] at hm
                  rcases hm with rfl | rfl <;> rfl
              | malformed raw =>
                  left; intro m hm
                  simp [healthEmitted, collectHealth, UnpackRpcErrorData] at hm
      | other msg =>
          right; intro m hm
          simp [healthEmitted, collectHealth] at hm
          rcases hm with rfl | rfl <;> rfl

lemma ownerSegment_homog (identity : String) (inputs : ScrapeInputs) (d : Desc) :
    (∀ m ∈ ownerSegment identity inputs d, m.isConst = true) ∨
    (∀ m ∈ ownerSegment identity inputs d, m.isInvalid = true) := by
  cases d
  case validatorActive => exact va_homog _
  case validatorActiveStake => exact va_homog _
  case validatorLastVote => exact va_homog _
  case validatorRootSlot => exact va_homog _
  case validatorDelinquent => exact va_homog _
  case accountBalances => exact balances_homog _
  case nodeVersion => exact version_homog _
  case nodeIsHealthy => exact healthEmitted_homog _ _
  case nodeNumSlotsBehind => exact healthEmitted_homog _ _
  case nodeMinimumLedgerSlot => exact mls_homog _ _
  case nodeFirstAvailableBlock => exact fab_homog _ _

lemma mem_owner_of_mem_emitted {identity : String} {inputs : ScrapeInputs} {m : Metric}
    (h : m ∈ (Collect identity inputs).emitted) :
    m ∈ ownerSegment identity inputs m.desc := by
  have handle_va : m ∈ collectVoteAccounts inputs.voteAccounts →
      m ∈ ownerSegment identity inputs m.desc := by
    intro hm
    have hd := desc_of_mem_collectVoteAccounts hm
    simp only [voteAccountDescs, List.mem_cons, List.not_mem_nil, or_false] at hd
    rcases hd with hd | hd | hd | hd | hd <;> rw [hd] <;> exact hm
  cases hh : collectHealth UnpackRpcErrorData identity inputs.health with
  | error e =>
      rw [Collect_eq_fatal hh] at h
      simp only [List.mem_append] at h
      rcases h with (h | h) | h
      · exact handle_va h
      · rw [desc_of_mem_collectVersion h]; exact h
      · rw [desc_of_mem_collectBalances h]; exact h
  | ok hm =>
      rw [Collect_eq_ok hh] at h
      simp only [List.mem_append] at h
      rcases h with ((((h | h) | h) | h) | h) | h
      · exact handle_va h
      · rw [desc_of_mem_collectVersion h]; exact h
      · rw [desc_of_mem_collectBalances h]; exact h
      · rcases desc_of_mem_collectHealth hh h with hd | hd <;> rw [hd] <;>
          simpa [ownerSegment, healthEmitted, hh] using h
      · rw [desc_of_mem_collectMinimumLedgerSlot h]; exact h
      · rw [desc_of_mem_collectFirstAvailableBlock h]; exact h

lemma filterDesc_Collect_eq_owner_va {identity : String} {inputs : ScrapeInputs} {d : Desc}
    (hd : d ∈ voteAccountDescs) :
    filterDesc d (Collect identity inputs).emitted =
      filterDesc d (collectVoteAccounts inputs.voteAccounts) := by
  have main : ∀ d', d' ≠ Desc.nodeVersion → d' ≠ .accountBalances → d' ≠ .nodeIsHealthy →
      d' ≠ .nodeNumSlotsBehind → d' ≠ .nodeMinimumLedgerSlot →
      d' ≠ .nodeFirstAvailableBlock →
      filterDesc d' (Collect identity inputs).emitted =
        filterDesc d' (collectVoteAccounts inputs.voteAccounts) := by
    intro d' h₁ h₂ h₃ h₄ h₅ h₆
    cases hh : collectHealth UnpackRpcErrorData identity inputs.health with
    | error e =>
        simp only [Collect_eq_fatal hh, filterDesc_append,
          filterDesc_version_eq_nil _ h₁, filterDesc_balances_eq_nil _ h₂,
          List.append_nil, List.nil_append]
    | ok hm =>
        have hhm : filterDesc d' hm = [] := by
          have hhe : healthEmitted identity inputs.health = hm := by
            simp [healthEmitted, hh]
          rw [← hhe]; exact filterDesc_healthEmitted_eq_nil _ _ h₃ h₄
        simp only [Collect_eq_ok hh, filterDesc_append,
          filterDesc_version_eq_nil _ h₁, filterDesc_balances_eq_nil _ h₂,
          filterDesc_mls_eq_nil _ _ h₅, filterDesc_fab_eq_nil _ _ h₆, hhm,
          List.append_nil, List.nil_append]
  simp only [voteAccountDescs, List.mem_cons, List.not_mem_nil, or_false] at hd
  rcases hd with rfl | rfl | rfl | rfl | rfl <;>
    exact main _ (by decide) (by decide) (by decide) (by decide) (by decide) (by decide)

/-- C9: within one scrape, for every metric descriptor the observations emitted
for that descriptor are either all normal observations or all failure
sentinels, never a mixture. -/
theorem sentinel_never_alongside_normal (identity : String) (inputs : ScrapeInputs)
    (d : Desc) :
    (∀ m ∈ filterDesc d (Collect identity inputs).emitted, m.isConst = true) ∨
    (∀ m ∈ filterDesc d (Collect identity inputs).emitted, m.isInvalid = true) := by
  rcases ownerSegment_homog identity inputs d with h | h
  · left
    intro m hm
    unfold filterDesc at hm
    have hd := List.of_mem_filter hm
    simp only [decide_eq_true_eq] at hd
    exact h m (hd ▸ mem_owner_of_mem_emitted (List.mem_of_mem_filter hm))
  · right
    intro m hm
    unfold filterDesc at hm
    have hd := List.of_mem_filter hm
    simp only [decide_eq_true_eq] at hd
    exact h m (hd ▸ mem_owner_of_mem_emitted (List.mem_of_mem_filter hm))

/-- C6: when the vote-accounts query succeeds, exactly two `validator_active`
observations are emitted in the scrape — valued `len(delinquent)` with state
label `delinquent` and `len(current)` with state label `current` — and their
values sum to `len(current) + len(delinquent)` of the upstream result. -/
theorem validatorActive_two_observations (identity : String) (inputs : ScrapeInputs)
    (va : VoteAccounts) (hva : inputs.voteAccounts = .ok va) :
    filterDesc .validatorActive (Collect identity inputs).emitted =
      [.const .validatorActive (va.delinquent.length : Int) [StateDelinquent],
       .const .validatorActive (va.current.length : Int) [StateCurrent]] ∧
    (filterDesc .validatorActive (Collect identity inputs).emitted).length = 2 ∧
    ((filterDesc .validatorActive (Collect identity inputs).emitted).map Metric.value).sum
      = (va.current.length : Int) + va.delinquent.length := by
  have h := @filterDesc_Collect_eq_owner_va identity inputs .validatorActive
    (by simp [voteAccountDescs])
  rw [hva, filterDesc_va_ok_active] at h
  refine ⟨h, ?_, ?_⟩
  · rw [h]; rfl
  · rw [h]; simp [Metric.value]; ring

/-- Witness for `validatorActive_two_observations` at a concrete scrape. -/
theorem validatorActive_two_observations_witness :
    filterDesc .validatorActive
      (Collect "id"
        { voteAccounts := .ok { current := [⟨"V1", "N1", 100, 50, 40⟩], delinquent := [] },
          version := .ok "1.18.0",
          balances := .ok [("A", 5)],
          health := .ok (),
          minimumLedgerSlot := .ok 3,
          firstAvailableBlock := .ok 7 }).emitted =
      [.const .validatorActive 0 [StateDelinquent],
       .const .validatorActive 1 [StateCurrent]] :=
  (validatorActive_two_observations "id" _
    { current := [⟨"V1", "N1", 100, 50, 40⟩], delinquent := [] } rfl).1

/-- C7: when the vote-accounts query succeeds, each record of
`current ++ delinquent` yields exactly one observation in each of the
active-stake, last-vote, root-slot and delinquency families, labelled with its
votePubkey and nodePubkey and valued by the record's corresponding field; the
delinquency indicator is 0 for every current record and 1 for every delinquent
record. -/
theorem per_validator_observations (identity : String) (inputs : ScrapeInputs)
    (va : VoteAccounts) (hva : inputs.voteAccounts = .ok va) :
    filterDesc .validatorActiveStake (Collect identity inputs).emitted =
      (va.current ++ va.delinquent).map (fun a =>
        Metric.const .validatorActiveStake a.activatedStake
          [a.votePubkey, a.nodePubkey]) ∧
    filterDesc .validatorLastVote (Collect identity inputs).emitted =
      (va.current ++ va.delinquent).map (fun a =>
        Metric.const .validatorLastVote a.lastVote [a.votePubkey, a.nodePubkey]) ∧
    filterDesc .validatorRootSlot (Collect identity inputs).emitted =
      (va.current ++ va.delinquent).map (fun a =>
        Metric.const .validatorRootSlot a.rootSlot [a.votePubkey, a.nodePubkey]) ∧
    filterDesc .validatorDelinquent (Collect identity inputs).emitted =
      (va.current.map fun a =>
        Metric.const .validatorDelinquent 0 [a.votePubkey, a.nodePubkey])
      ++ va.delinquent.map (fun a =>
        Metric.const .validatorDelinquent 1 [a.votePubkey, a.nodePubkey]) := by
  refine ⟨?_, ?_, ?_, ?_⟩
  · rw [@filterDesc_Collect_eq_owner_va identity inputs .validatorActiveStake
      (by simp [voteAccountDescs]), hva]
    exact filterDesc_va_ok_stake va
  · rw [@filterDesc_Collect_eq_owner_va identity inputs .validatorLastVote
      (by simp [voteAccountDescs]), hva]
    exact filterDesc_va_ok_lastVote va
  · rw [@filterDesc_Collect_eq_owner_va identity inputs .validatorRootSlot
      (by simp [voteAccountDescs]), hva]
    exact filterDesc_va_ok_rootSlot va
  · rw [@filterDesc_Collect_eq_owner_va identity inputs .validatorDelinquent
      (by simp [voteAccountDescs]), hva]
    exact filterDesc_va_ok_delinquent va

/-- Witness for `per_validator_observations` at the spec's §8 scenario
(`current = [\x7bV1, N1, stake 100, lastVote 50, root 40\x7d]`, `delinquent = []`). -/
theorem per_validator_observations_witness :
    filterDesc .validatorActiveStake
      (Collect "id"
        { voteAccounts := .ok { current := [⟨"V1", "N1", 100, 50, 40⟩], delinquent := [] },
          version := .ok "1.18.0",
          balances := .ok [],
          health := .ok (),
          minimumLedgerSlot := .ok 3,
          firstAvailableBlock := .ok 7 }).emitted =
      [.const .validatorActiveStake 100 ["V1", "N1"]] ∧
    filterDesc .validatorLastVote
      (Collect "id"
        { voteAccounts := .ok { current := [⟨"V1", "N1", 100, 50, 40⟩], delinquent := [] },
          version := .ok "1.18.0",
          balances := .ok [],
          health := .ok (),
          minimumLedgerSlot := .ok 3,
          firstAvailableBlock := .ok 7 }).emitted =
      [.const .validatorLastVote 50 ["V1", "N1"]] ∧
    filterDesc .validatorRootSlot
      (Collect "id"
        { voteAccounts := .ok { current := [⟨"V1", "N1", 100, 50, 40⟩], delinquent := [] },
          version := .ok "1.18.0",
          balances := .ok [],
          health := .ok (),
          minimumLedgerSlot := .ok 3,
          firstAvailableBlock := .ok 7 }).emitted =
      [.const .validatorRootSlot 40 ["V1", "N1"]] ∧
    filterDesc .validatorDelinquent
      (Collect "id"
        { voteAccounts := .ok { current := [⟨"V1", "N1", 100, 50, 40⟩], delinquent := [] },
          version := .ok "1.18.0",
          balances := .ok [],
          health := .ok (),
          minimumLedgerSlot := .ok 3,
          firstAvailableBlock := .ok 7 }).emitted =
      [.const .validatorDelinquent 0 ["V1", "N1"]] :=
  per_validator_observations "id" _
    { current := [⟨"V1", "N1", 100, 50, 40⟩], delinquent := [] } rfl

/-- C10: with no disjointness assumption on the two partitions,
`collectVoteAccounts` emits exactly `len(current) + len(delinquent)`
observations in each of the four per-validator families; a record present in
both partitions therefore yields two delinquency observations for the same
label pair, one valued 0 and one valued 1. -/
theorem per_validator_counts_without_disjointness (identity : String)
    (inputs : ScrapeInputs) (va : VoteAccounts) (hva : inputs.voteAccounts = .ok va) :
    (filterDesc .validatorActiveStake (Collect identity inputs).emitted).length
        = va.current.length + va.delinquent.length ∧
    (filterDesc .validatorLastVote (Collect identity inputs).emitted).length
        = va.current.length + va.delinquent.length ∧
    (filterDesc .validatorRootSlot (Collect identity inputs).emitted).length
        = va.current.length + va.delinquent.length ∧
    (filterDesc .validatorDelinquent (Collect identity inputs).emitted).length
        = va.current.length + va.delinquent.length ∧
    (∀ r : VoteAccount, r ∈ va.current → r ∈ va.delinquent →
      Metric.const .validatorDelinquent 0 [r.votePubkey, r.nodePubkey]
          ∈ filterDesc .validatorDelinquent (Collect identity inputs).emitted ∧
      Metric.const .validatorDelinquent 1 [r.votePubkey, r.nodePubkey]
          ∈ filterDesc .validatorDelinquent (Collect identity inputs).emitted) := by
  have hs := @filterDesc_Collect_eq_owner_va identity inputs .validatorActiveStake
    (by simp [voteAccountDescs])
  have hl := @filterDesc_Collect_eq_owner_va identity inputs .validatorLastVote
    (by simp [voteAccountDescs])
  have hr := @filterDesc_Collect_eq_owner_va identity inputs .validatorRootSlot
    (by simp [voteAccountDescs])
  have hd := @filterDesc_Collect_eq_owner_va identity inputs .validatorDelinquent
    (by simp [voteAccountDescs])
  rw [hva, filterDesc_va_ok_stake] at hs
  rw [hva, filterDesc_va_ok_lastVote] at hl
  rw [hva, filterDesc_va_ok_rootSlot] at hr
  rw [hva, filterDesc_va_ok_delinquent] at hd
  refine ⟨?_, ?_, ?_, ?_, ?_⟩
  · rw [hs]; simp
  · rw [hl]; simp
  · rw [hr]; simp
  · rw [hd]; simp
  · intro r hc hdq
    constructor
    · rw [hd]; exact List.mem_append_left _ (List.mem_map.mpr ⟨r, hc, rfl⟩)
    · rw [hd]; exact List.mem_append_right _ (List.mem_map.mpr ⟨r, hdq, rfl⟩)

/-- Witness for `per_validator_counts_without_disjointness` at a scrape whose
upstream reply lists the same record in both partitions. -/
theorem per_validator_counts_without_disjointness_witness :
    Metric.const .validatorDelinquent 0 ["V1", "N1"]
        ∈ filterDesc .validatorDelinquent
          (Collect "id"
            { voteAccounts := .ok { current := [⟨"V1", "N1", 9, 8, 7⟩],
                                    delinquent := [⟨"V1", "N1", 9, 8, 7⟩] },
              version := .ok "1.18.0",
              balances := .ok [],
              health := .ok (),
              minimumLedgerSlot := .ok 3,
              firstAvailableBlock := .ok 7 }).emitted ∧
    Metric.const .validatorDelinquent 1 ["V1", "N1"]
        ∈ filterDesc .validatorDelinquent
          (Collect "id"
            { voteAccounts := .ok { current := [⟨"V1", "N1", 9, 8, 7⟩],
                                    delinquent := [⟨"V1", "N1", 9, 8, 7⟩] },
              version := .ok "1.18.0",
              balances := .ok [],
              health := .ok (),
              minimumLedgerSlot := .ok 3,
              firstAvailableBlock := .ok 7 }).emitted :=
  (per_validator_counts_without_disjointness "id" _
      { current := [⟨"V1", "N1", 9, 8, 7⟩], delinquent := [⟨"V1", "N1", 9, 8, 7⟩] }
      rfl).2.2.2.2
    ⟨"V1", "N1", 9, 8, 7⟩ (by simp) (by simp)

/-- C2 (failing input): a health failure carrying the decodable payload
`\x7bnumSlotsBehind: 7\x7d` makes the code emit
`(node_is_healthy=0, node_num_slots_behind=0)` — not 7 as the claim requires —
because `errorData` is passed to the unpack function by value
(exporter.go:242) and is still the zero struct when read at exporter.go:247. -/
theorem collectHealth_drops_decoded_slots_behind :
    collectHealth UnpackRpcErrorData "identity"
        (.error (.rpcError { method := "getHealth", message := "node is unhealthy",
                             data := some (.slotsBehind 7) })) =
      .ok [.const .nodeIsHealthy 0 ["identity"],
           .const .nodeNumSlotsBehind 0 ["identity"]] := rfl

/-- C4: on a health failure that is either not a structured RPC error
(transport-level) or a structured RPC error with no secondary payload, the
health sub-collection emits exactly one failure sentinel for each of its two
families and nothing else; the result is the same for every possible unpack
function, so no payload decoding is attempted, and the scrape is not fatal. -/
theorem collectHealth_unclassified_error_sentinels
    (unpack : RPCError → NodeUnhealthyErrorData → Except String Unit)
    (identity : String) (e : HealthErr) (he : unclassifiedHealthError e) :
    collectHealth unpack identity (.error e) =
      .ok [.invalid .nodeIsHealthy e.text, .invalid .nodeNumSlotsBehind e.text] := by
  cases e with
  | rpcError r =>
      have hd : r.data = none := he
      simp [collectHealth, hd]
  | other msg => simp [collectHealth]

/-- Witness for `collectHealth_unclassified_error_sentinels` on a concrete
transport-level failure. -/
theorem collectHealth_unclassified_error_sentinels_witness :
    collectHealth UnpackRpcErrorData "id" (.error (.other "timeout")) =
      .ok [.invalid .nodeIsHealthy "timeout", .invalid .nodeNumSlotsBehind "timeout"] :=
  collectHealth_unclassified_error_sentinels UnpackRpcErrorData "id"
    (.other "timeout") trivial

/-- C5: when the health query fails with a structured RPC error whose secondary
payload is present but cannot be decoded, the scrape is fatal
(`logger.Fatalf`): no health observations — normal or sentinel — are emitted,
and the sub-collections that would run afterwards are never executed. -/
theorem collect_fatal_on_undecodable_payload (identity : String)
    (inputs : ScrapeInputs) (r : RPCError) (raw : String)
    (hh : inputs.health = .error (.rpcError r))
    (hdata : r.data = some (.malformed raw)) :
    (Collect identity inputs).fatal.isSome = true ∧
    filterDesc .nodeIsHealthy (Collect identity inputs).emitted = [] ∧
    filterDesc .nodeNumSlotsBehind (Collect identity inputs).emitted = [] ∧
    filterDesc .nodeMinimumLedgerSlot (Collect identity inputs).emitted = [] ∧
    filterDesc .nodeFirstAvailableBlock (Collect identity inputs).emitted = [] := by
  have hfatal : collectHealth UnpackRpcErrorData identity inputs.health =
      .error ("failed to unpack " ++ r.method
        ++ " rpc error: " ++ "invalid rpc error data format") := by
    rw [hh]; simp [collectHealth, hdata, UnpackRpcErrorData]
  have hnil : ∀ d' : Desc, d' ∉ voteAccountDescs → d' ≠ .nodeVersion →
      d' ≠ .accountBalances →
      filterDesc d' (collectVoteAccounts inputs.voteAccounts
        ++ collectVersion inputs.version ++ collectBalances inputs.balances) = [] := by
    intro d' h₁ h₂ h₃
    rw [filterDesc_append, filterDesc_append, filterDesc_va_eq_nil _ h₁,
      filterDesc_version_eq_nil _ h₂, filterDesc_balances_eq_nil _ h₃]
    rfl
  simp only [Collect_eq_fatal hfatal]
  exact ⟨rfl,
    hnil _ (by decide) (by decide) (by decide),
    hnil _ (by decide) (by decide) (by decide),
    hnil _ (by decide) (by decide) (by decide),
    hnil _ (by decide) (by decide) (by decide)⟩

/-- Witness for `collect_fatal_on_undecodable_payload` on a concrete scrape. -/
theorem collect_fatal_on_undecodable_payload_witness :
    (Collect "id"
      { voteAccounts := .ok { current := [], delinquent := [] },
        version := .ok "1.18.0",
        balances := .ok [("A", 5)],
        health := .error (.rpcError { method := "getHealth", message := "bad",
                                      data := some (.malformed "surprise") }),
        minimumLedgerSlot := .ok 11,
        firstAvailableBlock := .ok 22 }).fatal.isSome = true ∧
    filterDesc .nodeIsHealthy
      (Collect "id"
        { voteAccounts := .ok { current := [], delinquent := [] },
          version := .ok "1.18.0",
          balances := .ok [("A", 5)],
          health := .error (.rpcError { method := "getHealth", message := "bad",
                                        data := some (.malformed "surprise") }),
          minimumLedgerSlot := .ok 11,
          firstAvailableBlock := .ok 22 }).emitted = [] ∧
    filterDesc .nodeNumSlotsBehind
      (Collect "id"
        { voteAccounts := .ok { current := [], delinquent := [] },
          version := .ok "1.18.0",
          balances := .ok [("A", 5)],
          health := .error (.rpcError { method := "getHealth", message := "bad",
                                        data := some (.malformed "surprise") }),
          minimumLedgerSlot := .ok 11,
          firstAvailableBlock := .ok 22 }).emitted = [] ∧
    filterDesc .nodeMinimumLedgerSlot
      (Collect "id"
        { voteAccounts := .ok { current := [], delinquent := [] },
          version := .ok "1.18.0",
          balances := .ok [("A", 5)],
          health := .error (.rpcError { method := "getHealth", message := "bad",
                                        data := some (.malformed "surprise") }),
          minimumLedgerSlot := .ok 11,
          firstAvailableBlock := .ok 22 }).emitted = [] ∧
    filterDesc .nodeFirstAvailableBlock
      (Collect "id"
        { voteAccounts := .ok { current := [], delinquent := [] },
          version := .ok "1.18.0",
          balances := .ok [("A", 5)],
          health := .error (.rpcError { method := "getHealth", message := "bad",
                                        data := some (.malformed "surprise") }),
          minimumLedgerSlot := .ok 11,
          firstAvailableBlock := .ok 22 }).emitted = [] :=
  collect_fatal_on_undecodable_payload "id" _
    { method := "getHealth", message := "bad", data := some (.malformed "surprise") }
    "surprise" rfl rfl

/-- C3: if the vote-accounts query fails, exactly the five vote-account
families each emit one failure sentinel (and no normal observation), and for
every other family the observations — and the scrape's fatality — are
identical to what they would be had the vote-accounts query returned any
successful result. -/
theorem collect_voteAccounts_failure_isolated (identity : String)
    (inputs : ScrapeInputs) (e : String) (hva : inputs.voteAccounts = .error e) :
    (∀ d ∈ voteAccountDescs,
      filterDesc d (Collect identity inputs).emitted = [.invalid d e]) ∧
    (∀ va' : VoteAccounts, ∀ d : Desc, d ∉ voteAccountDescs →
      filterDesc d (Collect identity
          { inputs with voteAccounts := .ok va' }).emitted =
        filterDesc d (Collect identity inputs).emitted) ∧
    (∀ va' : VoteAccounts,
      (Collect identity { inputs with voteAccounts := .ok va' }).fatal =
        (Collect identity inputs).fatal) := by
  refine ⟨?_, ?_, ?_⟩
  · intro d hd
    rw [filterDesc_Collect_eq_owner_va hd, hva]
    exact filterDesc_va_error d e hd
  · intro va' d hd
    cases hh : collectHealth UnpackRpcErrorData identity inputs.health with
    | error efatal =>
        have hh' : collectHealth UnpackRpcErrorData identity
            ({ inputs with voteAccounts := .ok va' }).health = .error efatal := hh
        simp only [Collect_eq_fatal hh, Collect_eq_fatal hh', filterDesc_append]
        rw [filterDesc_va_eq_nil _ hd, filterDesc_va_eq_nil _ hd]
    | ok hm =>
        have hh' : collectHealth UnpackRpcErrorData identity
            ({ inputs with voteAccounts := .ok va' }).health = .ok hm := hh
        simp only [Collect_eq_ok hh, Collect_eq_ok hh', filterDesc_append]
        rw [filterDesc_va_eq_nil _ hd, filterDesc_va_eq_nil _ hd]
  · intro va'
    cases hh : collectHealth UnpackRpcErrorData identity inputs.health with
    | error efatal =>
        have hh' : collectHealth UnpackRpcErrorData identity
            ({ inputs with voteAccounts := .ok va' }).health = .error efatal := hh
        simp only [Collect_eq_fatal hh, Collect_eq_fatal hh']
    | ok hm =>
        have hh' : collectHealth UnpackRpcErrorData identity
            ({ inputs with voteAccounts := .ok va' }).health = .ok hm := hh
        simp only [Collect_eq_ok hh, Collect_eq_ok hh']

/-- Witness for `collect_voteAccounts_failure_isolated`: the five sentinels of
a concrete scrape whose vote-accounts query failed. -/
theorem collect_voteAccounts_failure_isolated_witness :
    filterDesc .validatorActive
      (Collect "id"
        { voteAccounts := .error "boom",
          version := .ok "1.18.0",
          balances := .ok [("A", 5)],
          health := .ok (),
          minimumLedgerSlot := .ok 11,
          firstAvailableBlock := .ok 22 }).emitted
      = [.invalid .validatorActive "boom"] ∧
    filterDesc .validatorDelinquent
      (Collect "id"
        { voteAccounts := .error "boom",
          version := .ok "1.18.0",
          balances := .ok [("A", 5)],
          health := .ok (),
          minimumLedgerSlot := .ok 11,
          firstAvailableBlock := .ok 22 }).emitted
      = [.invalid .validatorDelinquent "boom"] :=
  ⟨(collect_voteAccounts_failure_isolated "id" _ "boom" rfl).1 .validatorActive
      (by simp [voteAccountDescs]),
   (collect_voteAccounts_failure_isolated "id" _ "boom" rfl).1 .validatorDelinquent
      (by simp [voteAccountDescs])⟩

/-- C1 counterexample: with every query succeeding except health — which fails
with a structured RPC error carrying an undecodable secondary payload — the
scrape is fatal and no minimum-ledger-slot observation is emitted, even though
that sub-collection's own query succeeded; so a failure of one sub-collection
can abort the others, contrary to the claim. -/
theorem collect_fatal_aborts_cex :
    (Collect "id"
      { voteAccounts := .ok { current := [], delinquent := [] },
        version := .ok "1.18.0",
        balances := .ok [("A", 5)],
        health := .error (.rpcError { method := "getHealth", message := "bad",
                                      data := some (.malformed "zzz") }),
        minimumLedgerSlot := .ok 11,
        firstAvailableBlock := .ok 22 }).fatal
      = some ("failed to unpack " ++ "getHealth" ++ " rpc error: "
          ++ "invalid rpc error data format") ∧
    filterDesc .nodeMinimumLedgerSlot
      (Collect "id"
        { voteAccounts := .ok { current := [], delinquent := [] },
          version := .ok "1.18.0",
          balances := .ok [("A", 5)],
          health := .error (.rpcError { method := "getHealth", message := "bad",
                                        data := some (.malformed "zzz") }),
          minimumLedgerSlot := .ok 11,
          firstAvailableBlock := .ok 22 }).emitted = [] ∧
    collectMinimumLedgerSlot "id" (.ok 11) =
      [.const .nodeMinimumLedgerSlot 11 ["id"]] :=
  ⟨rfl, rfl, rfl⟩

/-- C1 (amended): unless the health query fails with a structured RPC error
whose secondary payload is undecodable — in which case the process terminates
fatally and the sub-collections after health never run — `Collect` invokes all
six sub-collections to completion: the scrape is not fatal, its output is
exactly the concatenation of the six sub-collections' outputs, each of which
is a function of only its own query result, and each sub-collection writes
only metrics of the families it owns (so a failing sub-collection emits only
its own failure sentinels). -/
theorem collect_isolation_except_fatal (identity : String) (inputs : ScrapeInputs)
    (hnf : undecodableHealthPayload inputs.health = false) :
    (Collect identity inputs).fatal = none ∧
    (Collect identity inputs).emitted =
      collectVoteAccounts inputs.voteAccounts
        ++ collectVersion inputs.version
        ++ collectBalances inputs.balances
        ++ healthEmitted identity inputs.health
        ++ collectMinimumLedgerSlot identity inputs.minimumLedgerSlot
        ++ collectFirstAvailableBlock identity inputs.firstAvailableBlock ∧
    (∀ m ∈ collectVoteAccounts inputs.voteAccounts, m.desc ∈ voteAccountDescs) ∧
    (∀ m ∈ collectVersion inputs.version, m.desc = .nodeVersion) ∧
    (∀ m ∈ collectBalances inputs.balances, m.desc = .accountBalances) ∧
    (∀ m ∈ healthEmitted identity inputs.health,
      m.desc = .nodeIsHealthy ∨ m.desc = .nodeNumSlotsBehind) ∧
    (∀ m ∈ collectMinimumLedgerSlot identity inputs.minimumLedgerSlot,
      m.desc = .nodeMinimumLedgerSlot) ∧
    (∀ m ∈ collectFirstAvailableBlock identity inputs.firstAvailableBlock,
      m.desc = .nodeFirstAvailableBlock) := by
  have hok : ∃ hm, collectHealth UnpackRpcErrorData identity inputs.health = .ok hm := by
    cases hhealth : inputs.health with
    | ok u => exact ⟨_, rfl⟩
    | error err =>
        cases err with
        | other msg => exact ⟨_, rfl⟩
        | rpcError r =>
            obtain ⟨method, message, data⟩ := r
            cases data with
            | none => exact ⟨_, rfl⟩
            | some pd =>
                cases pd with
                | slotsBehind n => exact ⟨_, rfl⟩
                | malformed raw => rw [hhealth] at hnf; simp [undecodableHealthPayload] at hnf
  obtain ⟨hm, hok⟩ := hok
  have hhe : healthEmitted identity inputs.health = hm := by simp [healthEmitted, hok]
  refine ⟨?_, ?_, fun m h => desc_of_mem_collectVoteAccounts h,
    fun m h => desc_of_mem_collectVersion h,
    fun m h => desc_of_mem_collectBalances h,
    fun m h => desc_of_mem_healthEmitted h,
    fun m h => desc_of_mem_collectMinimumLedgerSlot h,
    fun m h => desc_of_mem_collectFirstAvailableBlock h⟩
  · simp only [Collect_eq_ok hok]
  · simp only [Collect_eq_ok hok, hhe]

/-- Witness for `collect_isolation_except_fatal` on a concrete scrape in which
the vote-accounts query fails and every other query succeeds. -/
theorem collect_isolation_except_fatal_witness :
    (Collect "id"
      { voteAccounts := .error "boom",
        version := .ok "1.18.0",
        balances := .ok [("A", 5)],
        health := .ok (),
        minimumLedgerSlot := .ok 11,
        firstAvailableBlock := .ok 22 }).fatal = none ∧
    (Collect "id"
      { voteAccounts := .error "boom",
        version := .ok "1.18.0",
        balances := .ok [("A", 5)],
        health := .ok (),
        minimumLedgerSlot := .ok 11,
        firstAvailableBlock := .ok 22 }).emitted =
      collectVoteAccounts (.error "boom")
        ++ collectVersion (.ok "1.18.0")
        ++ collectBalances (.ok [("A", 5)])
        ++ healthEmitted "id" (.ok ())
        ++ collectMinimumLedgerSlot "id" (.ok 11)
        ++ collectFirstAvailableBlock "id" (.ok 22) ∧
    (∀ m ∈ collectVoteAccounts (.error "boom"), m.desc ∈ voteAccountDescs) ∧
    (∀ m ∈ collectVersion (.ok "1.18.0"), m.desc = .nodeVersion) ∧
    (∀ m ∈ collectBalances (.ok [("A", 5)]), m.desc = .accountBalances) ∧
    (∀ m ∈ healthEmitted "id" (.ok ()),
      m.desc = .nodeIsHealthy ∨ m.desc = .nodeNumSlotsBehind) ∧
    (∀ m ∈ collectMinimumLedgerSlot "id" (.ok 11), m.desc = .nodeMinimumLedgerSlot) ∧
    (∀ m ∈ collectFirstAvailableBlock "id" (.ok 22),
      m.desc = .nodeFirstAvailableBlock) :=
  collect_isolation_except_fatal "id"
    { voteAccounts := .error "boom",
      version := .ok "1.18.0",
      balances := .ok [("A", 5)],
      health := .ok (),
      minimumLedgerSlot := .ok 11,
      firstAvailableBlock := .ok 22 } rfl

lemma flatten_perm_of_perm {α : Type} {ls₁ ls₂ : List (List α)} (h : ls₁.Perm ls₂) :
    ls₁.flatten.Perm ls₂.flatten := by
  induction h with
  | nil => exact .rfl
  | cons x h ih => simpa [List.flatten_cons] using ih.append_left x
  | swap x y l =>
      simp only [List.flatten_cons]
      rw [← List.append_assoc, ← List.append_assoc]
      exact List.perm_append_comm.append_right _
  | trans h₁ h₂ ih₁ ih₂ => exact ih₁.trans ih₂

lemma toFinset_eq_of_perm {α : Type} [DecidableEq α] {l₁ l₂ : List α}
    (h : l₁.Perm l₂) : l₁.toFinset = l₂.toFinset :=
  Finset.ext fun x => by simp [List.mem_toFinset, h.mem_iff]

/-- C8: the address-set builder is a pure set-union builder: membership in its
result is membership in some input list; the result is invariant under
reordering the lists and the elements within them; duplicate lists collapse;
all-empty inputs yield the empty set; and on the spec's example it yields
exactly the three-element set containing A, B and C. -/
theorem combineUnique_spec :
    (∀ (lists : List (List String)) (x : String),
      x ∈ CombineUnique lists ↔ ∃ l ∈ lists, x ∈ l) ∧
    (∀ ls₁ ls₂ : List (List String), ls₁.Perm ls₂ →
      CombineUnique ls₁ = CombineUnique ls₂) ∧
    (∀ ls₁ ls₂ : List (List String), List.Forall₂ List.Perm ls₁ ls₂ →
      CombineUnique ls₁ = CombineUnique ls₂) ∧
    (∀ (l : List String) (ls : List (List String)),
      CombineUnique (l :: l :: ls) = CombineUnique (l :: ls)) ∧
    (∀ ls : List (List String), (∀ l ∈ ls, l = []) → CombineUnique ls = ∅) ∧
    CombineUnique [["A", "B"], ["B", "C"], []] = {"A", "B", "C"} := by
  refine ⟨?_, ?_, ?_, ?_, ?_, ?_⟩
  · intro lists x
    simp [CombineUnique, List.mem_toFinset, List.mem_flatten]
  · intro ls₁ ls₂ h
    exact toFinset_eq_of_perm (flatten_perm_of_perm h)
  · intro ls₁ ls₂ h
    exact toFinset_eq_of_perm (List.Perm.flatten_congr h)
  · intro l ls
    simp only [CombineUnique, List.flatten_cons, List.toFinset_append]
    rw [← Finset.union_assoc, Finset.union_self]
  · intro ls h
    apply Finset.ext; intro x
    simp only [CombineUnique, List.mem_toFinset, List.mem_flatten,
      Finset.not_mem_empty, iff_false, not_exists]
    intro l hl
    rcases hl with ⟨hmem, hx⟩
    rw [h l hmem] at hx
    exact (List.not_mem_nil x) hx
  · decide

/-- Witness for `combineUnique_spec`: concrete reorderings and an all-empty
input. -/
theorem combineUnique_spec_witness :
    CombineUnique [["A", "B"], ["B", "C"], []] =
      CombineUnique [[], ["B", "C"], ["A", "B"]] ∧
    CombineUnique [["B", "A"], ["C", "B"], []] =
      CombineUnique [["A", "B"], ["B", "C"], []] ∧
    CombineUnique [[], [], []] = ∅ :=
  ⟨combineUnique_spec.2.1 _ _ (by decide),
   combineUnique_spec.2.2.1 _ _ (by decide),
   combineUnique_spec.2.2.2.2.1 _ (by simp)⟩

end SolanaExporter
